import Mathlib

/-!
Verification development for the Amsterdam metro backend's data resolution and
caching pipeline.  The Python sources (`app/services/redis_service.py`,
`app/services/gtfs_service.py`, `app/models/metro.py`) are shallowly embedded:
pure record types become structures, stateful services take and return explicit
state, Python floats are modelled by `ℚ`, fallible code returns `Except`/`Option`,
and the transcendental functions `math.sin`/`math.cos` are abstracted as
rational-valued parameters (no claim depends on their values).
-/

namespace AMetro

/-- Character-list prefix test, helper for the substring test below. -/
def listStartsWith : List Char → List Char → Bool
  | _, [] => true
  | [], _ :: _ => false
  | a :: as, b :: bs => a == b && listStartsWith as bs

/-- Character-list substring test, helper for `strContains`. -/
def listHasSub : List Char → List Char → Bool
  | [], needle => needle.isEmpty
  | h :: t, needle => listStartsWith (h :: t) needle || listHasSub t needle

/-- Model of Python's `needle in hay` substring test on strings. -/
def strContains (hay needle : String) : Bool :=
  listHasSub hay.toList needle.toList

/-- Model of Python's `str.startswith`. -/
def strStartsWith (s pre : String) : Bool :=
  listStartsWith s.toList pre.toList

/-- Helper for `strSplitOnChar`: `cur` holds the current chunk reversed. -/
def splitCharGo (c : Char) (cur : List Char) : List Char → List (List Char)
  | [] => [cur.reverse]
  | x :: xs => if x == c then cur.reverse :: splitCharGo c [] xs else splitCharGo c (x :: cur) xs

/-- Model of Python's `str.split(sep)` for a one-character separator. -/
def strSplitOnChar (c : Char) (s : String) : List String :=
  (splitCharGo c [] s.toList).map String.mk

/-- Whitespace trim on both ends, the `str` stripping `float()`/`int()`
perform on their argument. -/
def trimChars (cs : List Char) : List Char :=
  ((cs.dropWhile Char.isWhitespace).reverse.dropWhile Char.isWhitespace).reverse

/-- Numeric value of a digit list, most significant first. -/
def digitsVal (cs : List Char) : Nat :=
  cs.foldl (fun acc c => acc * 10 + (c.toNat - '0'.toNat)) 0

/-- Helper for `pyFloat`: parses an unsigned decimal literal (`digits`,
`digits.digits`, `digits.` or `.digits`). -/
def pyFloatCore (cs : List Char) : Option ℚ :=
  match cs.span (fun c => c != '.') with
  | (ip, []) =>
    if ip.isEmpty then none
    else if ip.all Char.isDigit then some ((digitsVal ip : ℚ)) else none
  | (ip, _ :: fp) =>
    if ip.all Char.isDigit && fp.all Char.isDigit && !(ip.isEmpty && fp.isEmpty) then
      some ((digitsVal ip : ℚ) + (digitsVal fp : ℚ) / (10 : ℚ) ^ fp.length)
    else none

/-- Model of Python's builtin `float(str)` on decimal literals: optional sign,
digits with an optional decimal point; anything else raises `ValueError`,
modelled as `none`.  (Exponent/`inf`/`nan` forms are outside the feeds this
service parses and are conservatively rejected.) -/
def pyFloat (s : String) : Option ℚ :=
  match trimChars s.toList with
  | '-' :: r => (pyFloatCore r).map (fun q => -q)
  | '+' :: r => pyFloatCore r
  | r => pyFloatCore r

/-- Model of Python's builtin `int(str)`: optional sign then digits; anything
else raises `ValueError`, modelled as `none`. -/
def pyInt (s : String) : Option Int :=
  match trimChars s.toList with
  | '-' :: r =>
    if r.isEmpty then none
    else if r.all Char.isDigit then some (-(digitsVal r : Int)) else none
  | '+' :: r =>
    if r.isEmpty then none
    else if r.all Char.isDigit then some ((digitsVal r : Int)) else none
  | r =>
    if r.isEmpty then none
    else if r.all Char.isDigit then some ((digitsVal r : Int)) else none

/-- JSON values, the payloads that flow through the cache and the live API.
`json.dumps`/`json.loads` round-trip is the identity on this type, so the
embedding stores `JVal` directly where the Python code stores serialized text. -/
inductive JVal where
  | jnull
  | jbool (b : Bool)
  | jnum (q : ℚ)
  | jstr (s : String)
  | jarr (xs : List JVal)
  | jobj (kvs : List (String × JVal))

/-- Model of Python truthiness on JSON values (`if cached_data:` etc.). -/
def JVal.truthy : JVal → Bool
  | .jnull => false
  | .jbool b => b
  | .jnum q => if q = 0 then false else true
  | .jstr s => !(s == "")
  | .jarr xs => !xs.isEmpty
  | .jobj kvs => !kvs.isEmpty

/-- First-match association-list lookup, the model of Python `dict` reads. -/
def alookup {κ α : Type} [BEq κ] : List (κ × α) → κ → Option α
  | [], _ => none
  | (k, v) :: rest, key => if k == key then some v else alookup rest key

/-- Insert-or-overwrite preserving insertion order, the model of Python
`d[k] = v` on a `dict`. -/
def upsert {κ α : Type} [BEq κ] : List (κ × α) → κ → α → List (κ × α)
  | [], key, v => [(key, v)]
  | (k, w) :: rest, key, v =>
    if k == key then (key, v) :: rest else (k, w) :: upsert rest key v

/-- One row of a GTFS delimited table as produced by `csv.DictReader`:
header-keyed string fields; `get` models `row.get(k)`. -/
structure Row where
  fields : List (String × String)
deriving Repr, DecidableEq

/-- Model of `row.get(k)` (absent key gives `None`). -/
def Row.get (r : Row) (k : String) : Option String :=
  alookup r.fields k

/-- Model of `row.get(k, d)`. -/
def Row.getD (r : Row) (k d : String) : String :=
  (r.get k).getD d

/-- State of the Redis backing store: key, stored JSON payload and optional
absolute expiry instant (seconds).  Time is an explicit `Nat` clock. -/
structure RedisStore where
  entries : List (String × (JVal × Option Nat))

/-- Model of redis `GET` at instant `now`: an entry whose expiry has passed is
absent. -/
def RedisStore.getVal (st : RedisStore) (now : Nat) (key : String) : Option JVal :=
  match alookup st.entries key with
  | none => none
  | some (v, none) => some v
  | some (v, some exp) => if now < exp then some v else none

/-- Model of redis `SET` (clears any previous TTL, as redis does). -/
def RedisStore.setVal (st : RedisStore) (key : String) (v : JVal) : RedisStore :=
  ⟨upsert st.entries key (v, none)⟩

/-- Helper for `RedisStore.expireAt`: sets the expiry of the entry at `key`. -/
def expireEntries : List (String × (JVal × Option Nat)) → String → Nat →
    List (String × (JVal × Option Nat))
  | [], _, _ => []
  | (k, w) :: rest, key, exp =>
    if k == key then (k, (w.1, some exp)) :: expireEntries rest key exp
    else (k, w) :: expireEntries rest key exp

/-- Model of redis `EXPIRE key t` issued at instant `now = exp - t`: sets the
absolute expiry of an existing key, no-op on a missing key. -/
def RedisStore.expireAt (st : RedisStore) (key : String) (exp : Nat) : RedisStore :=
  ⟨expireEntries st.entries key exp⟩

/-- Model of redis `DEL`: reports whether the key was (unexpired) present and
removes it. -/
def RedisStore.delKey (st : RedisStore) (now : Nat) (key : String) : Bool × RedisStore :=
  ((st.getVal now key).isSome, ⟨st.entries.filter (fun e => !(e.1 == key))⟩)

/-- `RedisService` (redis_service.py line 11): `redis = none` is the degraded
mode entered when the constructor's `ping` fails. -/
structure RedisService where
  redis : Option RedisStore

/-- `RedisService.set_data` (redis_service.py lines 24-42).  `json.dumps` of a
`JVal` cannot fail, so the `try` body only performs the two store operations;
note the Python `if expiry:` truthiness test, under which an expiry of `0`
means no expiry. -/
def set_data (svc : RedisService) (now : Nat) (key : String) (v : JVal)
    (expiry : Option Nat) : Bool × RedisService :=
  match svc.redis with
  | none => (false, svc)
  | some st =>
    let st1 := st.setVal key v
    let st2 := match expiry with
      | some e => if e != 0 then st1.expireAt key (now + e) else st1
      | none => st1
    (true, ⟨some st2⟩)

/-- `RedisService.get_data` (redis_service.py lines 44-63).  The stored text is
`json.dumps` output, which is never an empty string, so the `if not data:`
guard is equivalent to the key being absent; `json.loads` then restores the
stored `JVal`.  The unused `model_class` argument (always `None` at every call
site in the repository) is omitted. -/
def get_data (svc : RedisService) (now : Nat) (key : String) : Option JVal :=
  match svc.redis with
  | none => none
  | some st => st.getVal now key

/-- `RedisService.delete_data` (redis_service.py lines 65-74). -/
def delete_data (svc : RedisService) (now : Nat) (key : String) : Bool × RedisService :=
  match svc.redis with
  | none => (false, svc)
  | some st =>
    let r := st.delKey now key
    (r.1, ⟨some r.2⟩)

/-- `Station` (models/metro.py lines 5-11); coordinates are `ℚ` models of the
Python floats. -/
structure Station where
  id : String
  name : String
  latitude : ℚ
  longitude : ℚ
  routes : List String
deriving Repr, DecidableEq

/-- `MetroLine` (models/metro.py lines 14-21); `shape` is a list of
`[longitude, latitude]` coordinate lists, exactly the declared
`List[List[float]]`. -/
structure MetroLine where
  id : String
  name : String
  color : String
  route_id : String
  shape : List (List ℚ)
  stations : List Station
deriving Repr, DecidableEq

/-- `TrainPosition` (models/metro.py lines 24-35). -/
structure TrainPosition where
  id : String
  route_id : String
  latitude : ℚ
  longitude : ℚ
  bearing : Option ℚ
  speed : Option ℚ
  status : Option String
  timestamp : Int
  vehicle_id : String
  trip_id : Option String
deriving Repr, DecidableEq

/-- Exceptions raised during ingestion: download failure (`requests` raise),
unreadable archive (`zipfile` raise), missing table file (`open` raise), and
malformed record (`ValueError`/pydantic `ValidationError`/`TypeError`).  The
broad `except Exception` handlers of the resolver treat them uniformly. -/
inductive IngestErr where
  | downloadErr
  | archiveErr
  | fileErr
  | valueErr
deriving Repr, DecidableEq

/-- The per-route display data accumulated by `_find_metro_routes`
(gtfs_service.py lines 124-127). -/
structure RouteInfo where
  name : String
  color : String
deriving Repr, DecidableEq

/-- The route short-name whitelist (gtfs_service.py line 119 and line 277). -/
def whitelist : List String :=
  ["50", "51", "52", "53", "54"]

/-- `GTFSService._find_gvb_agency_id` (gtfs_service.py lines 98-105): first row
whose `agency_name` contains `"GVB"` yields its `agency_id` (possibly absent). -/
def find_gvb_agency_id : List Row → Option String
  | [] => none
  | r :: rest =>
    if strContains (r.getD "agency_name" "") "GVB" then r.get "agency_id"
    else find_gvb_agency_id rest

/-- Loop of `GTFSService._find_metro_routes` (gtfs_service.py lines 113-127).
The accumulator is the `metro_routes` dict; its keys are `row.get('route_id')`
values, which Python allows to be `None`. -/
def find_metro_routes_go (agencyId : Option String)
    (acc : List (Option String × RouteInfo)) :
    List Row → List (Option String × RouteInfo)
  | [] => acc
  | row :: rest =>
    if (row.get "route_type" == some "1") &&
        (agencyId.isNone || row.get "agency_id" == agencyId) then
      let shortName := row.getD "route_short_name" ""
      if whitelist.contains shortName then
        let color0 := row.getD "route_color" "FFFFFF"
        let color := if color0 == "" then "FFFFFF" else color0
        find_metro_routes_go agencyId (upsert acc (row.get "route_id") ⟨shortName, color⟩) rest
      else find_metro_routes_go agencyId acc rest
    else find_metro_routes_go agencyId acc rest

/-- `GTFSService._find_metro_routes` (gtfs_service.py lines 107-129). -/
def find_metro_routes (rows : List Row) (agencyId : Option String) :
    List (Option String × RouteInfo) :=
  find_metro_routes_go agencyId [] rows

/-- Model of `float(row.get(k, 0))` (gtfs_service.py lines 144-145): an absent
field defaults to the integer `0`, so `float` succeeds with `0.0`; a present
field goes through `float(str)` and raises `ValueError` on non-numeric text. -/
def parseCoord : Option String → Except IngestErr ℚ
  | none => .ok 0
  | some s =>
    match pyFloat s with
    | some q => .ok q
    | none => .error .valueErr

/-- Loop of `GTFSService._process_stations` (gtfs_service.py lines 137-147).
Python evaluates the `Station(...)` keyword arguments first (so a bad
coordinate raises `ValueError` before pydantic sees the row) and pydantic then
rejects a missing `stop_id` (`id` must be a `str`). -/
def process_stations_go (acc : List (String × Station)) :
    List Row → Except IngestErr (List (String × Station))
  | [] => .ok acc
  | row :: rest =>
    let lt := row.getD "location_type" "0"
    if lt == "0" || lt == "1" then
      match parseCoord (row.get "stop_lat") with
      | .error e => .error e
      | .ok lat =>
        match parseCoord (row.get "stop_lon") with
        | .error e => .error e
        | .ok lon =>
          match row.get "stop_id" with
          | none => .error .valueErr
          | some sid =>
            process_stations_go
              (upsert acc sid ⟨sid, row.getD "stop_name" "", lat, lon, []⟩) rest
    else process_stations_go acc rest

/-- `GTFSService._process_stations` (gtfs_service.py lines 131-149).  The
`route_ids` argument of the source is never used by the function body and is
therefore not a parameter here. -/
def process_stations (rows : List Row) : Except IngestErr (List (String × Station)) :=
  process_stations_go [] rows

/-- `int(route_id.split('.')[-1]) if '.' in route_id else 50`
(gtfs_service.py line 162). -/
def routeNumE (rid : String) : Except IngestErr Int :=
  if strContains rid "." then
    match pyInt ((strSplitOnChar '.' rid).getLastD "") with
    | some n => .ok n
    | none => .error .valueErr
  else .ok 50

/-- One synthesized curve point (gtfs_service.py lines 165-170), returned as
the `[longitude, latitude]` list the source appends.  `math.sin`/`math.cos`
are the abstract parameters `msin`/`mcos`. -/
def curvePoint20 (msin mcos : ℚ → ℚ) (rnum : Int) (i : Nat) : List ℚ :=
  let angle : ℚ := ((i : ℚ) / 20) * 6.28
  let radius : ℚ := 0.01 + ((rnum % 5 : Int) : ℚ) * 0.002
  [4.9041 + radius * mcos angle, 52.3676 + radius * 1.5 * msin angle]

/-- Loop of `GTFSService._process_shapes` (gtfs_service.py lines 161-172): for
each route id, synthesize the 20-point closed curve.  A `None` route id raises
(`'.' in None` is a `TypeError`), as does a non-numeric suffix after a dot. -/
def process_shapes_go (msin mcos : ℚ → ℚ) (acc : List (String × List (List ℚ))) :
    List (Option String) → Except IngestErr (List (String × List (List ℚ)))
  | [] => .ok acc
  | none :: _ => .error .valueErr
  | some rid :: rest =>
    match routeNumE rid with
    | .error e => .error e
    | .ok n =>
      process_shapes_go msin mcos
        (upsert acc rid ((List.range 20).map (curvePoint20 msin mcos n))) rest

/-- `GTFSService._process_shapes` (gtfs_service.py lines 151-174).  Faithful to
the source: the `shapesRows` argument (the parsed `shapes.txt`) is NEVER read —
the source opens no file here and its `shape_points` variable is dead; every
route's geometry is synthesized unconditionally. -/
def process_shapes (shapesRows : List Row) (routeIds : List (Option String))
    (msin mcos : ℚ → ℚ) : Except IngestErr (List (String × List (List ℚ))) :=
  process_shapes_go msin mcos [] routeIds

/-- All-`some` extraction of the route-id list.  In the source the ids are
plain strings by the time they are used after `_process_shapes` (which raised
on any `None` id); this conversion is the typing artifact of that fact and
errors exactly where `_process_shapes` already errored. -/
def deOption : List (Option String) → Except IngestErr (List String)
  | [] => .ok []
  | none :: _ => .error .valueErr
  | some s :: rest =>
    match deOption rest with
    | .error e => .error e
    | .ok l => .ok (s :: l)

/-- The five tables of the extracted feed archive; `none` means the file is
missing from the archive (so `open` would raise).  Only `agency`, `routes`
and `stops` are ever opened by the source: `_process_shapes` (gtfs_service.py
lines 151-174) and `_associate_stations_with_routes` (lines 176-179) receive
the `shapes.txt` and `stop_times.txt` paths but never open them, so their
absence cannot fail an ingestion run.  `shapes` and `stop_times` are listed
for completeness of the archive model. -/
structure GTFSFiles where
  agency : Option (List Row)
  routes : Option (List Row)
  stops : Option (List Row)
  shapes : Option (List Row)
  stop_times : Option (List Row)

/-- The pair returned by `extract_metro_data`. -/
structure ExtractResult where
  metroLines : List (String × MetroLine)
  stations : List (String × Station)
deriving Repr, DecidableEq

/-- `GTFSService.extract_metro_data` body after extraction (gtfs_service.py
lines 58-92): agency scan, route filter, station parse, shape synthesis, the
associate-all step (`station.routes = list(route_ids)`, lines 178-179), and
the `MetroLine` assembly join (lines 81-92) with
`route_stations = [s for s in stations.values() if route_id in s.routes]`.
Only `agency.txt`, `routes.txt` and `stops.txt` are opened (their absence
raises `FileNotFoundError`); `_process_shapes` never opens `shapes.txt`, so a
missing shapes table cannot fail the run — its (ignored) rows are passed as
`files.shapes.getD []`. -/
def extract_metro_tables (files : GTFSFiles) (msin mcos : ℚ → ℚ) :
    Except IngestErr ExtractResult :=
  match files.agency with
  | none => .error .fileErr
  | some agencyRows =>
    match files.routes with
    | none => .error .fileErr
    | some routesRows =>
      let metroRoutes := find_metro_routes routesRows (find_gvb_agency_id agencyRows)
      let routeIds := metroRoutes.map (fun kv => kv.1)
      match files.stops with
      | none => .error .fileErr
      | some stopsRows =>
        match process_stations stopsRows with
        | .error e => .error e
        | .ok stations0 =>
          match process_shapes (files.shapes.getD []) routeIds msin mcos with
          | .error e => .error e
          | .ok shapes =>
            match deOption routeIds with
            | .error e => .error e
            | .ok rids =>
              let stations1 := stations0.map
                (fun kv => (kv.1, { kv.2 with routes := rids }))
              let infos := metroRoutes.map (fun kv => kv.2)
              let lines := (rids.zip infos).map (fun p =>
                (p.1, ({ id := p.1, name := p.2.name, color := p.2.color,
                         route_id := p.1,
                         shape := (alookup shapes p.1).getD [],
                         stations := (stations1.map (fun kv => kv.2)).filter
                           (fun s => s.routes.contains p.1) } : MetroLine)))
              .ok ⟨lines, stations1⟩

/-- Outcome of `requests.get(GTFS_URL)` plus `raise_for_status`
(gtfs_service.py lines 41-42): either the whole download fails, or it yields
an archive that is corrupt or holds the five tables. -/
inductive Archive where
  | corrupt
  | good (files : GTFSFiles)

/-- Environment of one ingestion run. -/
inductive DownloadResult where
  | fail
  | ok (archive : Archive)

/-- Residual temporary filesystem state of an ingestion run: whether the
downloaded temp `.zip` and the scratch extraction directory exist. -/
structure TempFS where
  archiveFile : Bool
  scratchDir : Bool
deriving Repr, DecidableEq

/-- `GTFSService.download_gtfs_data` (gtfs_service.py lines 37-48): on download
failure nothing was written; on success the temp archive file now exists. -/
def download_gtfs_data (dl : DownloadResult) (fs : TempFS) :
    Except IngestErr Archive × TempFS :=
  match dl with
  | .fail => (.error .downloadErr, fs)
  | .ok a => (.ok a, { fs with archiveFile := true })

/-- `GTFSService.extract_metro_data` resource behaviour (gtfs_service.py lines
50-96): the scratch directory is a `with tempfile.TemporaryDirectory()` scope,
deleted on every exit; `os.unlink(zip_path)` (line 94) runs only after the
`with` block completes without raising, i.e. only on success. -/
def extract_metro_data (a : Archive) (fs : TempFS) (msin mcos : ℚ → ℚ) :
    Except IngestErr ExtractResult × TempFS :=
  match a with
  | .corrupt => (.error .archiveErr, { fs with scratchDir := false })
  | .good files =>
    match extract_metro_tables files msin mcos with
    | .error e => (.error e, { fs with scratchDir := false })
    | .ok r => (.ok r, { archiveFile := false, scratchDir := false })

/-- The `download_gtfs_data(); extract_metro_data(zip_path)` sequence of the
resolver's `try` block (gtfs_service.py lines 190-191), with the temp
filesystem threaded through. -/
def ingestFS (dl : DownloadResult) (fs : TempFS) (msin mcos : ℚ → ℚ) :
    Except IngestErr ExtractResult × TempFS :=
  match download_gtfs_data dl fs with
  | (.error e, fs1) => (.error e, fs1)
  | (.ok a, fs1) => extract_metro_data a fs1 msin mcos

/-- Result of the ingestion sequence, without the filesystem bookkeeping. -/
def ingest (dl : DownloadResult) (msin mcos : ℚ → ℚ) : Except IngestErr ExtractResult :=
  (ingestFS dl ⟨false, false⟩ msin mcos).1

/-- The fixed fallback table of `GTFSService._get_basic_metro_lines`
(gtfs_service.py lines 327-333). -/
def basicLinesInfo : List (String × RouteInfo) :=
  [("50", ⟨"Gein - Isolatorweg", "FFB3BA"⟩),
   ("51", ⟨"Centraal Station - Amstelveen Westwijk", "BAFFC9"⟩),
   ("52", ⟨"Noord - Zuid", "BAE1FF"⟩),
   ("53", ⟨"Centraal Station - Gaasperplas", "FFFFBA"⟩),
   ("54", ⟨"Gein - Centraal Station", "E1BAFF"⟩)]

/-- One placeholder point of the degraded dataset (gtfs_service.py lines
338-343), `[longitude, latitude]`. -/
def basicCurvePoint (msin mcos : ℚ → ℚ) (lnum : Int) (i : Nat) : List ℚ :=
  let angle : ℚ := ((i : ℚ) / 10) * 3.14
  let radius : ℚ := 0.01 + ((lnum % 5 : Int) : ℚ) * 0.002
  [4.9041 + radius * mcos angle, 52.3676 + radius * msin angle]

/-- `GTFSService._get_basic_metro_lines` (gtfs_service.py lines 323-355): the
static degraded dataset; `int(line_id)` always succeeds on the five fixed ids,
so the total `(pyInt kv.1).getD 0` is faithful. -/
def get_basic_metro_lines (msin mcos : ℚ → ℚ) : List (String × MetroLine) :=
  basicLinesInfo.map (fun kv =>
    (kv.1, { id := kv.1, name := kv.2.name, color := kv.2.color, route_id := kv.1,
             shape := (List.range 10).map (basicCurvePoint msin mcos ((pyInt kv.1).getD 0)),
             stations := [] }))

/-- Runtime errors the resolver can leak to its caller: pydantic
`ValidationError` from `model_validate`, and `TypeError`/`AttributeError` from
treating a non-dict/non-list cached value as one. -/
inductive PyErr where
  | validationError
  | typeError
deriving Repr, DecidableEq

/-- Pydantic validation of a required `str` field. -/
def vStr : Option JVal → Except PyErr String
  | some (.jstr s) => .ok s
  | _ => .error .validationError

/-- Pydantic validation of a required `float` field (accepts numbers and
numeric strings, pydantic's lax mode). -/
def vFloat : Option JVal → Except PyErr ℚ
  | some (.jnum q) => .ok q
  | some (.jstr s) =>
    match pyFloat s with
    | some q => .ok q
    | none => .error .validationError
  | _ => .error .validationError

/-- Pydantic validation of a required `int` field. -/
def vInt : Option JVal → Except PyErr Int
  | some (.jnum q) => if q.den = 1 then .ok q.num else .error .validationError
  | some (.jstr s) =>
    match pyInt s with
    | some n => .ok n
    | none => .error .validationError
  | _ => .error .validationError

/-- Pydantic validation of an `Optional[float] = None` field. -/
def vOptFloat : Option JVal → Except PyErr (Option ℚ)
  | none => .ok none
  | some .jnull => .ok none
  | some v => (vFloat (some v)).map some

/-- Pydantic validation of an `Optional[str] = None` field. -/
def vOptStr : Option JVal → Except PyErr (Option String)
  | none => .ok none
  | some .jnull => .ok none
  | some v => (vStr (some v)).map some

/-- Pydantic validation of a `List[str]` field. -/
def vStrList : Option JVal → Except PyErr (List String)
  | some (.jarr xs) => xs.mapM (fun x => vStr (some x))
  | _ => .error .validationError

/-- `Station.model_dump()`. -/
def Station.modelDump (s : Station) : JVal :=
  .jobj [("id", .jstr s.id), ("name", .jstr s.name),
         ("latitude", .jnum s.latitude), ("longitude", .jnum s.longitude),
         ("routes", .jarr (s.routes.map JVal.jstr))]

/-- `Station.model_validate` on a JSON value (extra keys ignored, pydantic's
default). -/
def Station.modelValidate : JVal → Except PyErr Station
  | .jobj kvs => do
    let id ← vStr (alookup kvs "id")
    let name ← vStr (alookup kvs "name")
    let lat ← vFloat (alookup kvs "latitude")
    let lon ← vFloat (alookup kvs "longitude")
    let routes ← vStrList (alookup kvs "routes")
    .ok ⟨id, name, lat, lon, routes⟩
  | _ => .error .validationError

/-- Validation of one `[longitude, latitude]` shape entry, typed
`List[float]`. -/
def vFloatList : Option JVal → Except PyErr (List ℚ)
  | some (.jarr xs) => xs.mapM (fun x => vFloat (some x))
  | _ => .error .validationError

/-- `MetroLine.model_dump()`. -/
def MetroLine.modelDump (m : MetroLine) : JVal :=
  .jobj [("id", .jstr m.id), ("name", .jstr m.name), ("color", .jstr m.color),
         ("route_id", .jstr m.route_id),
         ("shape", .jarr (m.shape.map (fun pt => .jarr (pt.map JVal.jnum)))),
         ("stations", .jarr (m.stations.map Station.modelDump))]

/-- `MetroLine.model_validate` on a JSON value. -/
def MetroLine.modelValidate : JVal → Except PyErr MetroLine
  | .jobj kvs => do
    let id ← vStr (alookup kvs "id")
    let name ← vStr (alookup kvs "name")
    let color ← vStr (alookup kvs "color")
    let routeId ← vStr (alookup kvs "route_id")
    let shape ←
      match alookup kvs "shape" with
      | some (.jarr xs) => xs.mapM (fun x => vFloatList (some x))
      | _ => .error .validationError
    let stations ←
      match alookup kvs "stations" with
      | some (.jarr xs) => xs.mapM Station.modelValidate
      | _ => .error .validationError
    .ok ⟨id, name, color, routeId, shape, stations⟩
  | _ => .error .validationError

/-- `TrainPosition.model_dump()`. -/
def TrainPosition.modelDump (p : TrainPosition) : JVal :=
  .jobj [("id", .jstr p.id), ("route_id", .jstr p.route_id),
         ("latitude", .jnum p.latitude), ("longitude", .jnum p.longitude),
         ("bearing", (p.bearing.map JVal.jnum).getD .jnull),
         ("speed", (p.speed.map JVal.jnum).getD .jnull),
         ("status", (p.status.map JVal.jstr).getD .jnull),
         ("timestamp", .jnum (p.timestamp : ℚ)),
         ("vehicle_id", .jstr p.vehicle_id),
         ("trip_id", (p.trip_id.map JVal.jstr).getD .jnull)]

/-- `TrainPosition.model_validate` on a JSON value. -/
def TrainPosition.modelValidate : JVal → Except PyErr TrainPosition
  | .jobj kvs => do
    let id ← vStr (alookup kvs "id")
    let routeId ← vStr (alookup kvs "route_id")
    let lat ← vFloat (alookup kvs "latitude")
    let lon ← vFloat (alookup kvs "longitude")
    let bearing ← vOptFloat (alookup kvs "bearing")
    let speed ← vOptFloat (alookup kvs "speed")
    let status ← vOptStr (alookup kvs "status")
    let ts ← vInt (alookup kvs "timestamp")
    let vid ← vStr (alookup kvs "vehicle_id")
    let tid ← vOptStr (alookup kvs "trip_id")
    .ok ⟨id, routeId, lat, lon, bearing, speed, status, ts, vid, tid⟩
  | _ => .error .validationError

/-- The dict comprehension over a cached `metro_lines` hit (gtfs_service.py
lines 186-187): `.items()` requires a dict (else `AttributeError`), and each
value goes through `MetroLine.model_validate` (which raises on malformed
data — this runs OUTSIDE any `try`). -/
def decodeLinesMap : JVal → Except PyErr (List (String × MetroLine))
  | .jobj kvs => kvs.mapM (fun kv => (MetroLine.modelValidate kv.2).map (fun m => (kv.1, m)))
  | _ => .error .typeError

/-- The dict comprehension over a cached `stations` hit (gtfs_service.py lines
215-216 and 224-225). -/
def decodeStationsMap : JVal → Except PyErr (List (String × Station))
  | .jobj kvs => kvs.mapM (fun kv => (Station.modelValidate kv.2).map (fun s => (kv.1, s)))
  | _ => .error .typeError

/-- The list comprehension over a cached `train_positions` hit
(gtfs_service.py line 240): iterating a list validates its elements; iterating
a dict yields its keys (strings, which `model_validate` rejects); iterating a
string yields one-character strings; other values are not iterable
(`TypeError`).  All of this runs OUTSIDE the `try`. -/
def decodePositionsList : JVal → Except PyErr (List TrainPosition)
  | .jarr xs => xs.mapM TrainPosition.modelValidate
  | .jobj kvs => kvs.mapM (fun kv => TrainPosition.modelValidate (.jstr kv.1))
  | .jstr s => s.toList.mapM (fun c => TrainPosition.modelValidate (.jstr (String.mk [c])))
  | _ => .error .typeError

/-- The `metro_lines` dict as written to the cache (gtfs_service.py lines
194-198). -/
def encodeLinesMap (ls : List (String × MetroLine)) : JVal :=
  .jobj (ls.map (fun kv => (kv.1, kv.2.modelDump)))

/-- The `stations` dict as written to the cache (gtfs_service.py lines
199-203). -/
def encodeStationsMap (sts : List (String × Station)) : JVal :=
  .jobj (sts.map (fun kv => (kv.1, kv.2.modelDump)))

/-- `GTFSService.get_metro_lines` (gtfs_service.py lines 181-208).  Inputs:
the optional cache service (`self.redis_service`), the clock, the outcome the
network will give this ingestion run, the abstracted trig functions, and
`force_refresh`.  Output: the returned dict (or the exception leaked by the
cache-hit validation, which is outside the `try`) paired with the cache state
afterwards. -/
def get_metro_lines (redisSvc : Option RedisService) (now : Nat)
    (dl : DownloadResult) (msin mcos : ℚ → ℚ) (forceRefresh : Bool) :
    Except PyErr (List (String × MetroLine)) × Option RedisService :=
  let cached : Option JVal :=
    if forceRefresh then none
    else redisSvc.bind (fun svc => get_data svc now "metro_lines")
  let fetch : Except PyErr (List (String × MetroLine)) × Option RedisService :=
    match ingest dl msin mcos with
    | .error _ => (.ok (get_basic_metro_lines msin mcos), redisSvc)
    | .ok r =>
      let svc2 := redisSvc.map (fun svc =>
        let svc1 := (set_data svc now "metro_lines" (encodeLinesMap r.metroLines)
          (some 86400)).2
        (set_data svc1 now "stations" (encodeStationsMap r.stations) (some 86400)).2)
      (.ok r.metroLines, svc2)
  match cached with
  | some v => if v.truthy then (decodeLinesMap v, redisSvc) else fetch
  | none => fetch

/-- `GTFSService.get_stations` (gtfs_service.py lines 210-230).  The nested
`get_metro_lines(force_refresh=True)` call, the cache re-read and its
validation are all inside the `try`, whose handler returns the empty dict;
only the initial cache-hit validation (lines 215-216) can raise. -/
def get_stations (redisSvc : Option RedisService) (now : Nat)
    (dl : DownloadResult) (msin mcos : ℚ → ℚ) (forceRefresh : Bool) :
    Except PyErr (List (String × Station)) × Option RedisService :=
  let cached : Option JVal :=
    if forceRefresh then none
    else redisSvc.bind (fun svc => get_data svc now "stations")
  let tryFetch : Except PyErr (List (String × Station)) × Option RedisService :=
    let r1 := get_metro_lines redisSvc now dl msin mcos true
    match r1.1 with
    | .error _ => (.ok [], r1.2)
    | .ok _ =>
      match r1.2.bind (fun svc => get_data svc now "stations") with
      | some v =>
        if v.truthy then
          match decodeStationsMap v with
          | .ok sts => (.ok sts, r1.2)
          | .error _ => (.ok [], r1.2)
        else (.ok [], r1.2)
      | none => (.ok [], r1.2)
  match cached with
  | some v => if v.truthy then (decodeStationsMap v, redisSvc) else tryFetch
  | none => tryFetch

/-- Environment of one live-position poll: the parsed JSON of
`GET {OVAPI}/journey` (or `.error ()` when the request or `response.json()`
raises), the parsed JSON of each `GET {OVAPI}/journey/{id}` detail call, and
`int(datetime.now().timestamp())`. -/
structure OvapiEnv where
  journeyList : Except Unit JVal
  journeyDetail : String → Except Unit JVal
  time : Int

/-- The body of the per-journey inner `try` after the detail request
(gtfs_service.py lines 285-292): find the journey key, its `Stops` dict, take
the first stop's truthy `Latitude`/`Longitude` and convert with `float`.
Every malformed shape lands in the inner `except` (`continue`), modelled as
`none`. -/
def firstStopCoords (resp : Except Unit JVal) (journeyId : String) : Option (ℚ × ℚ) :=
  match resp with
  | .error _ => none
  | .ok jd =>
    match jd with
    | .jobj kvs =>
      match alookup kvs journeyId with
      | none => none
      | some inner =>
        match inner with
        | .jobj ikvs =>
          match (alookup ikvs "Stops").getD (.jobj []) with
          | .jobj skvs =>
            match skvs with
            | [] => none
            | (_, firstStop) :: _ =>
              match firstStop with
              | .jobj fkvs =>
                let lat := alookup fkvs "Latitude"
                let lon := alookup fkvs "Longitude"
                if ((lat.map JVal.truthy).getD false) && ((lon.map JVal.truthy).getD false) then
                  match (lat.getD .jnull) with
                  | .jnum la =>
                    match (lon.getD .jnull) with
                    | .jnum lo => some (la, lo)
                    | .jstr s => (pyFloat s).map (fun lo => (la, lo))
                    | .jbool b => some (la, if b then 1 else 0)
                    | _ => none
                  | .jstr s =>
                    match pyFloat s with
                    | none => none
                    | some la =>
                      match (lon.getD .jnull) with
                      | .jnum lo => some (la, lo)
                      | .jstr t => (pyFloat t).map (fun lo => (la, lo))
                      | .jbool b => some (la, if b then 1 else 0)
                      | _ => none
                  | .jbool b =>
                    let la : ℚ := if b then 1 else 0
                    match (lon.getD .jnull) with
                    | .jnum lo => some (la, lo)
                    | .jstr t => (pyFloat t).map (fun lo => (la, lo))
                    | .jbool c => some (la, if c then 1 else 0)
                    | _ => none
                  | _ => none
                else none
              | _ => none
          | _ => none
        | _ => none
    | _ => none

/-- One iteration of the journey loop (gtfs_service.py lines 268-311): the
`GVB_` prefix filter, the four-part split, the line-number whitelist, then the
detail call; `none` is a `continue`. -/
def processJourney (env : OvapiEnv) (journeyId : String) : Option TrainPosition :=
  if !(strStartsWith journeyId "GVB_") then none
  else
    let parts := strSplitOnChar '_' journeyId
    if parts.length < 4 then none
    else
      let lineNumber := parts.getD 2 ""
      if !(whitelist.contains lineNumber) then none
      else
        match firstStopCoords (env.journeyDetail journeyId) journeyId with
        | none => none
        | some ll =>
          some { id := "train_" ++ lineNumber ++ "_" ++ parts.getD 3 "",
                 route_id := lineNumber,
                 latitude := ll.1, longitude := ll.2,
                 bearing := some 0, speed := some 35,
                 status := some "IN_TRANSIT_TO",
                 timestamp := env.time,
                 vehicle_id := journeyId, trip_id := some journeyId }

/-- `GTFSService._get_ovapi_train_positions` (gtfs_service.py lines 258-321).
The outer `except` logs and falls off the end, returning `None` — modelled as
`none`; `data.items()` on a non-dict raises into that same handler.  The
`if positions: return positions else: return []` tail returns the same list
either way. -/
def get_ovapi_train_positions (env : OvapiEnv) : Option (List TrainPosition) :=
  match env.journeyList with
  | .error _ => none
  | .ok v =>
    match v with
    | .jobj kvs => some (kvs.filterMap (fun kv => processJourney env kv.1))
    | _ => none

/-- `GTFSService.get_train_positions` (gtfs_service.py lines 234-256).  The
cache-hit validation (line 240) is outside the `try` and can raise; the fetch
itself cannot (its callee absorbs every error), a non-empty fetch is cached
with `expiry=3`, and an empty or failed fetch returns `[]` without caching. -/
def get_train_positions (redisSvc : Option RedisService) (now : Nat) (env : OvapiEnv) :
    Except PyErr (List TrainPosition) × Option RedisService :=
  let cached : Option JVal :=
    redisSvc.bind (fun svc => get_data svc now "train_positions")
  let fetch : Except PyErr (List TrainPosition) × Option RedisService :=
    match get_ovapi_train_positions env with
    | some ps =>
      if ps.isEmpty then (.ok [], redisSvc)
      else
        let svc2 := redisSvc.map (fun svc =>
          (set_data svc now "train_positions" (.jarr (ps.map TrainPosition.modelDump))
            (some 3)).2)
        (.ok ps, svc2)
    | none => (.ok [], redisSvc)
  match cached with
  | some v => if v.truthy then (decodePositionsList v, redisSvc) else fetch
  | none => fetch

/-- Concrete stand-in for the abstracted `math.sin`/`math.cos` parameters,
used by witnesses and counterexamples at concrete inputs. -/
def zf : ℚ → ℚ := fun _ => 0

/-- Whether an `Except` is a success. -/
def isOkE {ε α : Type} : Except ε α → Bool
  | .ok _ => true
  | .error _ => false

/-- The payload of a successful `Except`, with a default. -/
def exGetD {ε α : Type} (x : Except ε α) (d : α) : α :=
  match x with
  | .ok a => a
  | .error _ => d

/-- Decidable equality on `Except`, used to evaluate fixtures. -/
instance {ε α : Type} [DecidableEq ε] [DecidableEq α] : DecidableEq (Except ε α) := fun x y =>
  match x, y with
  | .ok a, .ok b =>
    if h : a = b then .isTrue (by rw [h]) else .isFalse (fun hc => by cases hc; exact h rfl)
  | .ok _, .error _ => .isFalse (fun hc => by cases hc)
  | .error _, .ok _ => .isFalse (fun hc => by cases hc)
  | .error a, .error b =>
    if h : a = b then .isTrue (by rw [h]) else .isFalse (fun hc => by cases hc; exact h rfl)

/-- A `shapes.txt` table that DOES contain shape points (here for route `50`):
input for checking that `process_shapes` ignores its contents. -/
def shapesFixture : List Row :=
  [⟨[("shape_id", "sh50"), ("shape_pt_lat", "52.37"), ("shape_pt_lon", "4.90"),
     ("shape_pt_sequence", "1")]⟩,
   ⟨[("shape_id", "sh50"), ("shape_pt_lat", "52.38"), ("shape_pt_lon", "4.91"),
     ("shape_pt_sequence", "2")]⟩]

/-- A minimal well-formed feed archive: the GVB agency, one in-scope metro
route (`route_id` `r50`, short name `50`), one station. -/
def files8 : GTFSFiles :=
  { agency := some [⟨[("agency_id", "GVB1"), ("agency_name", "GVB")]⟩],
    routes := some [⟨[("route_id", "r50"), ("route_type", "1"), ("agency_id", "GVB1"),
                      ("route_short_name", "50"), ("route_color", "FF0000")]⟩],
    stops := some [⟨[("stop_id", "s1"), ("stop_name", "A"), ("stop_lat", "52"),
                     ("stop_lon", "4"), ("location_type", "1")]⟩],
    shapes := some [],
    stop_times := some [] }

/-- A poll environment whose journey-list request fails (transport error). -/
def env0 : OvapiEnv :=
  ⟨.error (), fun _ => .error (), 0⟩

/-- A reachable cache whose `train_positions` key holds the malformed entry
`5` (a JSON number, not a list of position records). -/
def svcCx : RedisService :=
  ⟨some ⟨[("train_positions", (.jnum 5, none))]⟩⟩

/-- A poll environment with two GVB journeys on line `50`; each journey-detail
response's first stop sits at latitude 52, longitude 4. -/
def envC7 : OvapiEnv :=
  { journeyList := .ok (.jobj [("GVB_a_50_1", .jnum 1), ("GVB_b_50_2", .jnum 1)]),
    journeyDetail := fun jid => .ok (.jobj [(jid, .jobj [("Stops",
      .jobj [("st", .jobj [("Latitude", .jnum 52), ("Longitude", .jnum 4)])])])]),
    time := 100 }

/-- First position the fetch at `envC7` yields. -/
def posA : TrainPosition :=
  ⟨"train_50_1", "50", 52, 4, some 0, some 35, some "IN_TRANSIT_TO", 100,
   "GVB_a_50_1", some "GVB_a_50_1"⟩

/-- Second position the fetch at `envC7` yields. -/
def posB : TrainPosition :=
  ⟨"train_50_2", "50", 52, 4, some 0, some 35, some "IN_TRANSIT_TO", 100,
   "GVB_b_50_2", some "GVB_b_50_2"⟩

/-- A feed archive accepted by ingestion whose one stop carries the
out-of-range latitude `999`. -/
def files9 : GTFSFiles :=
  { agency := some [],
    routes := some [],
    stops := some [⟨[("stop_id", "s9"), ("stop_name", "X"), ("stop_lat", "999"),
                     ("stop_lon", "4")]⟩],
    shapes := some [],
    stop_times := some [] }

/-- The parsed value of a coordinate field lies within `bound`, whenever the
field parses at all. -/
def coordOk (o : Option String) (bound : ℚ) : Prop :=
  ∀ q, parseCoord o = .ok q → -bound ≤ q ∧ q ≤ bound

/-! ## Lemmas and claim theorems -/

theorem alookup_upsert_self {κ α : Type} [BEq κ] [LawfulBEq κ]
    (l : List (κ × α)) (key : κ) (v : α) :
    alookup (upsert l key v) key = some v := by
  induction l with
  | nil => simp [upsert, alookup]
  | cons hd tl ih =>
    obtain ⟨k, w⟩ := hd
    by_cases h : (k == key) = true
    · simp [upsert, h, alookup]
    · simp [upsert, h, alookup, ih]

theorem alookup_expireEntries (l : List (String × (JVal × Option Nat)))
    (key : String) (exp : Nat) :
    alookup (expireEntries l key exp) key
      = (alookup l key).map (fun p => (p.1, some exp)) := by
  induction l with
  | nil => simp [expireEntries, alookup]
  | cons hd tl ih =>
    obtain ⟨k, w⟩ := hd
    by_cases h : (k == key) = true
    · simp [expireEntries, h, alookup]
    · simp [expireEntries, h, alookup, ih]

/-- C2: with the backing store unreachable at construction time
(`self.redis = None`), every `set_data` returns `false`, every `get_data`
returns absent, every `delete_data` returns `false`, none raises and the
degraded state is unchanged. -/
theorem c2_degraded_cache (now : Nat) (k : String) (v : JVal) (e : Option Nat) :
    set_data ⟨none⟩ now k v e = (false, ⟨none⟩) ∧
    get_data ⟨none⟩ now k = none ∧
    delete_data ⟨none⟩ now k = (false, ⟨none⟩) :=
  ⟨rfl, rfl, rfl⟩

/-- C3: with a reachable backing store, `set_data k v` with TTL `e > 0` at
instant `n` makes `get_data k` return `v` immediately, return absent at any
instant more than `e` seconds later, and with the TTL omitted the key never
expires. -/
theorem c3_cache_roundtrip (st : RedisStore) (n : Nat) (k : String) (v : JVal)
    (e : Nat) (he : 0 < e) :
    get_data (set_data ⟨some st⟩ n k v (some e)).2 n k = some v ∧
    (∀ m, n + e < m → get_data (set_data ⟨some st⟩ n k v (some e)).2 m k = none) ∧
    (∀ m, get_data (set_data ⟨some st⟩ n k v none).2 m k = some v) := by
  have hne : (e != 0) = true := by
    simpa [bne_iff_ne] using Nat.pos_iff_ne_zero.mp he
  have key : ∀ m : Nat, get_data (set_data ⟨some st⟩ n k v (some e)).2 m k
      = if m < n + e then some v else none := by
    intro m
    simp [set_data, hne, get_data, RedisStore.getVal, RedisStore.expireAt,
      RedisStore.setVal, alookup_expireEntries, alookup_upsert_self]
  refine ⟨?_, ?_, ?_⟩
  · rw [key]
    simp [Nat.lt_add_of_pos_right he]
  · intro m hm
    rw [key]
    simp [Nat.not_lt.mpr (Nat.le_of_lt hm)]
  · intro m
    simp [set_data, get_data, RedisStore.getVal, RedisStore.setVal, alookup_upsert_self]

theorem c3_witness :
    0 < 5 ∧
    get_data (set_data ⟨some ⟨[]⟩⟩ 0 "k" .jnull (some 5)).2 0 "k" = some .jnull ∧
    get_data (set_data ⟨some ⟨[]⟩⟩ 0 "k" .jnull (some 5)).2 6 "k" = none ∧
    get_data (set_data ⟨some ⟨[]⟩⟩ 0 "k" .jnull none).2 9 "k" = some .jnull :=
  ⟨by decide,
   (c3_cache_roundtrip ⟨[]⟩ 0 "k" .jnull 5 (by decide)).1,
   (c3_cache_roundtrip ⟨[]⟩ 0 "k" .jnull 5 (by decide)).2.1 6 (by decide),
   (c3_cache_roundtrip ⟨[]⟩ 0 "k" .jnull 5 (by decide)).2.2 9⟩

/-- C1: under any failing ingestion, `get_metro_lines(force_refresh=False)`
with an empty cache returns exactly the static degraded dataset — the five
route ids `50`-`54`, each with a non-empty name, a display color, the
ten-point synthesized placeholder geometry and no stations — without raising
and without touching the cache, and `get_stations(False)` returns the empty
map without raising. -/
theorem c1_fallback_ladder (redisSvc : Option RedisService) (now : Nat)
    (dl : DownloadResult) (msin mcos : ℚ → ℚ) (err : IngestErr)
    (hfail : ingest dl msin mcos = .error err)
    (hml : redisSvc.bind (fun svc => get_data svc now "metro_lines") = none)
    (hst : redisSvc.bind (fun svc => get_data svc now "stations") = none) :
    get_metro_lines redisSvc now dl msin mcos false
      = (.ok (get_basic_metro_lines msin mcos), redisSvc) ∧
    (get_basic_metro_lines msin mcos).map (fun kv => kv.1)
      = ["50", "51", "52", "53", "54"] ∧
    (∀ kv ∈ get_basic_metro_lines msin mcos,
      kv.2.name ≠ "" ∧ kv.2.color ≠ "" ∧ kv.2.shape.length = 10 ∧ kv.2.stations = []) ∧
    get_stations redisSvc now dl msin mcos false = (.ok [], redisSvc) := by
  have h1 : ∀ fr, get_metro_lines redisSvc now dl msin mcos fr
      = if fr then (.ok (get_basic_metro_lines msin mcos), redisSvc)
        else (.ok (get_basic_metro_lines msin mcos), redisSvc) := by
    intro fr
    cases fr <;> simp [get_metro_lines, hml, hfail]
  refine ⟨by simpa using h1 false, rfl, ?_, ?_⟩
  · intro kv hkv
    simp only [get_basic_metro_lines, basicLinesInfo, List.map_cons, List.map_nil,
      List.mem_cons, List.not_mem_nil, or_false] at hkv
    rcases hkv with rfl | rfl | rfl | rfl | rfl <;>
      exact ⟨by simp, by simp, by simp, rfl⟩
  · have h2 := h1 true
    simp only [if_true] at h2
    simp [get_stations, hst, h2]

theorem c1_witness :
    ingest .fail zf zf = .error .downloadErr ∧
    (some (⟨some ⟨[]⟩⟩ : RedisService)).bind (fun svc => get_data svc 0 "metro_lines") = none ∧
    (some (⟨some ⟨[]⟩⟩ : RedisService)).bind (fun svc => get_data svc 0 "stations") = none ∧
    get_metro_lines (some ⟨some ⟨[]⟩⟩) 0 .fail zf zf false
      = (.ok (get_basic_metro_lines zf zf), some ⟨some ⟨[]⟩⟩) ∧
    get_stations (some ⟨some ⟨[]⟩⟩) 0 .fail zf zf false
      = (.ok [], some ⟨some ⟨[]⟩⟩) :=
  ⟨rfl, rfl, rfl,
   (c1_fallback_ladder (some ⟨some ⟨[]⟩⟩) 0 .fail zf zf .downloadErr rfl rfl rfl).1,
   (c1_fallback_ladder (some ⟨some ⟨[]⟩⟩) 0 .fail zf zf .downloadErr rfl rfl rfl).2.2.2⟩

/-- C4 (code bug): the claim says geometry is derived from the shapes table
when it has points for an in-scope route, with the synthesized curve only as
an absence fallback.  In fact `_process_shapes` never reads the shapes table:
its output is independent of the table's rows, and on a table that does carry
points for route `50` it still returns the synthesized placeholder curve
(which with the trig functions evaluated at the model's zero stand-in is the
constant point `[4.9041, 52.3676]` twenty times). -/
theorem c4_shapes_ignored :
    (∀ (rows1 rows2 : List Row) (rids : List (Option String)) (msin mcos : ℚ → ℚ),
      process_shapes rows1 rids msin mcos = process_shapes rows2 rids msin mcos) ∧
    process_shapes shapesFixture [some "50"] zf zf
      = .ok [("50", (List.range 20).map (curvePoint20 zf zf 50))] ∧
    (∀ (n : Int) (i : Nat), curvePoint20 zf zf n i = [4.9041, 52.3676]) := by
  refine ⟨fun _ _ _ _ _ => rfl, rfl, fun n i => ?_⟩
  simp [curvePoint20, zf]

/-- C5 counterexample: a run whose download succeeds but whose archive is
corrupt exits with the downloaded temporary archive file still present
(`archiveFile = true`), contradicting "both the downloaded temporary archive
file and the scratch extraction directory are deleted on every exit path". -/
theorem c5_counterexample :
    ingestFS (.ok .corrupt) ⟨false, false⟩ zf zf
      = (.error .archiveErr, ⟨true, false⟩) := rfl

/-- C5 (amended): on every exit path the scratch extraction directory is
deleted, and the archive file is deleted when ingestion succeeds (and was
never created when the download itself failed); but on any failure after a
successful download, the archive file is left behind. -/
theorem c5_cleanup_amended (dl : DownloadResult) (msin mcos : ℚ → ℚ) :
    (ingestFS dl ⟨false, false⟩ msin mcos).2.scratchDir = false ∧
    (isOkE (ingestFS dl ⟨false, false⟩ msin mcos).1 = true →
      (ingestFS dl ⟨false, false⟩ msin mcos).2.archiveFile = false) ∧
    (dl = .fail → (ingestFS dl ⟨false, false⟩ msin mcos).2.archiveFile = false) ∧
    (∀ a e, dl = .ok a → (ingestFS dl ⟨false, false⟩ msin mcos).1 = .error e →
      (ingestFS dl ⟨false, false⟩ msin mcos).2.archiveFile = true) := by
  cases dl with
  | fail =>
    refine ⟨rfl, fun _ => rfl, fun _ => rfl, fun a e h1 _ => ?_⟩
    cases h1
  | ok a =>
    cases a with
    | corrupt =>
      refine ⟨rfl, ?_, ?_, fun a e _ _ => rfl⟩
      · intro h
        simp [ingestFS, download_gtfs_data, extract_metro_data, isOkE] at h
      · intro h
        cases h
    | good files =>
      cases hx : extract_metro_tables files msin mcos with
      | error e =>
        have hi : ingestFS (.ok (.good files)) ⟨false, false⟩ msin mcos
            = (.error e, ⟨true, false⟩) := by
          simp [ingestFS, download_gtfs_data, extract_metro_data, hx]
        rw [hi]
        refine ⟨rfl, ?_, ?_, fun a e _ _ => rfl⟩
        · intro h
          simp [isOkE] at h
        · intro h
          cases h
      | ok r =>
        have hi : ingestFS (.ok (.good files)) ⟨false, false⟩ msin mcos
            = (.ok r, ⟨false, false⟩) := by
          simp [ingestFS, download_gtfs_data, extract_metro_data, hx]
        rw [hi]
        refine ⟨rfl, fun _ => rfl, ?_, fun a e _ h2 => ?_⟩
        · intro h
          cases h
        · cases h2

theorem c5_witness :
    (ingestFS (.ok (.good files8)) ⟨false, false⟩ zf zf).2.scratchDir = false ∧
    (ingestFS (.ok (.good files8)) ⟨false, false⟩ zf zf).2.archiveFile = false :=
  ⟨(c5_cleanup_amended (.ok (.good files8)) zf zf).1,
   (c5_cleanup_amended (.ok (.good files8)) zf zf).2.1 (by decide)⟩

/-- C6 counterexample: with a malformed cached `train_positions` entry (the
JSON number `5`), `get_train_positions` raises (`TypeError` from iterating a
number, surfaced outside the `try`), contradicting "never raises an error to
its caller ... including a malformed cached entry". -/
theorem c6_counterexample :
    (get_train_positions (some svcCx) 0 env0).1 = .error .typeError := rfl

/-- C6 (amended): on a cache miss `get_train_positions` never raises — any
fetch failure or empty fetch yields `[]` with nothing written to the cache,
and only a fetch with at least one position is cached (TTL 3 seconds); but a
malformed cached hit does raise (see the counterexample). -/
theorem c6_live_fetch_amended (redisSvc : Option RedisService) (now : Nat)
    (env : OvapiEnv)
    (hmiss : redisSvc.bind (fun svc => get_data svc now "train_positions") = none) :
    (get_train_positions redisSvc now env).1
      = .ok ((get_ovapi_train_positions env).getD []) ∧
    (get_ovapi_train_positions env = none →
      get_train_positions redisSvc now env = (.ok [], redisSvc)) ∧
    (get_ovapi_train_positions env = some [] →
      get_train_positions redisSvc now env = (.ok [], redisSvc)) ∧
    (∀ p ps, get_ovapi_train_positions env = some (p :: ps) →
      get_train_positions redisSvc now env = (.ok (p :: ps),
        redisSvc.map (fun svc =>
          (set_data svc now "train_positions"
            (.jarr ((p :: ps).map TrainPosition.modelDump)) (some 3)).2))) := by
  cases hf : get_ovapi_train_positions env with
  | none =>
    have hmain : get_train_positions redisSvc now env = (.ok [], redisSvc) := by
      simp [get_train_positions, hmiss, hf]
    refine ⟨by simp [hmain], fun _ => hmain, ?_, ?_⟩
    · intro h
      cases h
    · intro p ps h
      cases h
  | some ps =>
    cases ps with
    | nil =>
      have hmain : get_train_positions redisSvc now env = (.ok [], redisSvc) := by
        simp [get_train_positions, hmiss, hf]
      refine ⟨by simp [hmain], ?_, fun _ => hmain, ?_⟩
      · intro h
        cases h
      · intro p ps h
        cases h
    | cons p rest =>
      have hmain : get_train_positions redisSvc now env = (.ok (p :: rest),
          redisSvc.map (fun svc =>
            (set_data svc now "train_positions"
              (.jarr ((p :: rest).map TrainPosition.modelDump)) (some 3)).2)) := by
        simp [get_train_positions, hmiss, hf]
      refine ⟨by simp [hmain], ?_, ?_, ?_⟩
      · intro h
        cases h
      · intro h
        cases h
      · intro q qs h
        cases h
        exact hmain

theorem c6_witness :
    (none : Option RedisService).bind (fun svc => get_data svc 0 "train_positions") = none ∧
    (get_train_positions none 0 env0).1 = .ok ((get_ovapi_train_positions env0).getD []) ∧
    get_train_positions none 0 env0 = (.ok [], none) :=
  ⟨rfl, (c6_live_fetch_amended none 0 env0 rfl).1,
   (c6_live_fetch_amended none 0 env0 rfl).2.1 rfl⟩

/-- C7 counterexample: two journeys of the same line `50` yield positions with
the same route identifier but different trip identifiers (each is the verbatim
upstream journey identifier), so the trip id is NOT synthesized from the route
id as the claim states. -/
theorem c7_counterexample :
    get_ovapi_train_positions envC7 = some [posA, posB] ∧
    posA.route_id = posB.route_id ∧ posA.trip_id ≠ posB.trip_id :=
  ⟨rfl, rfl, by decide⟩

/-- C7 (amended): every position produced by a successful live fetch has a
whitelisted route id, bearing 0, speed 35.0, status `IN_TRANSIT_TO`, the fetch
time as timestamp, latitude/longitude taken from the first stop of the
journey-detail response for its journey, a RECORD id synthesized from the
route id and the journey-id suffix, and a trip id equal to the verbatim
upstream journey identifier (not synthesized from the route id). -/
theorem c7_positions_amended (env : OvapiEnv) (ps : List TrainPosition)
    (p : TrainPosition)
    (hf : get_ovapi_train_positions env = some ps) (hp : p ∈ ps) :
    p.route_id ∈ whitelist ∧
    p.bearing = some 0 ∧ p.speed = some 35 ∧ p.status = some "IN_TRANSIT_TO" ∧
    p.timestamp = env.time ∧
    p.trip_id = some p.vehicle_id ∧
    p.id = "train_" ++ p.route_id ++ "_" ++ ((strSplitOnChar '_' p.vehicle_id).getD 3 "") ∧
    firstStopCoords (env.journeyDetail p.vehicle_id) p.vehicle_id
      = some (p.latitude, p.longitude) := by
  simp only [get_ovapi_train_positions] at hf
  split at hf
  · cases hf
  · split at hf
    case _ kvs =>
      cases hf
      obtain ⟨kv, hkv, hpj⟩ := List.mem_filterMap.mp hp
      simp only [processJourney] at hpj
      split at hpj
      · cases hpj
      · split at hpj
        · cases hpj
        · split at hpj
          · cases hpj
          case _ hwl =>
            split at hpj
            · cases hpj
            case _ ll hll =>
              cases hpj
              refine ⟨?_, rfl, rfl, rfl, rfl, rfl, rfl, hll⟩
              have hc : whitelist.contains ((strSplitOnChar '_' kv.1).getD 2 "") = true := by
                revert hwl
                cases whitelist.contains ((strSplitOnChar '_' kv.1).getD 2 "") <;> simp
              exact List.mem_of_elem_eq_true hc
    all_goals cases hf

theorem c7_witness :
    get_ovapi_train_positions envC7 = some [posA, posB] ∧
    posA ∈ [posA, posB] ∧
    posA.route_id ∈ whitelist ∧
    posA.trip_id = some posA.vehicle_id :=
  ⟨rfl, by simp,
   (c7_positions_amended envC7 [posA, posB] posA rfl (by simp)).1,
   (c7_positions_amended envC7 [posA, posB] posA rfl (by simp)).2.2.2.2.2.1⟩

theorem deOption_length (l : List (Option String)) (r : List String)
    (h : deOption l = .ok r) : r.length = l.length := by
  induction l generalizing r with
  | nil =>
    cases h
    rfl
  | cons hd tl ih =>
    cases hd with
    | none => cases h
    | some s =>
      simp only [deOption] at h
      cases htl : deOption tl with
      | error e =>
        rw [htl] at h
        cases h
      | ok l2 =>
        rw [htl] at h
        cases h
        simp [ih l2 htl]

/-- Keys of the assembled line map are exactly the de-optioned route ids. -/
theorem assemble_keys {β : Type} (rids : List String) (infos : List β)
    (g : String × β → MetroLine) (hlen : rids.length ≤ infos.length) :
    ((rids.zip infos).map (fun p => (p.1, g p))).map (fun kv => kv.1) = rids := by
  rw [List.map_map]
  exact List.map_fst_zip rids infos hlen

/-- C8: after a successful ingestion run, every station's route list is
exactly the run's route-id list (= the keys of the returned line map), every
line's station list contains every station, and every route id referenced by
a station is a key of the returned line map. -/
theorem c8_referential_integrity (files : GTFSFiles) (msin mcos : ℚ → ℚ)
    (r : ExtractResult) (h : extract_metro_tables files msin mcos = .ok r) :
    (∀ kv ∈ r.stations, kv.2.routes = r.metroLines.map (fun lkv => lkv.1)) ∧
    (∀ lkv ∈ r.metroLines, ∀ skv ∈ r.stations, skv.2 ∈ lkv.2.stations) ∧
    (∀ skv ∈ r.stations, ∀ rid ∈ skv.2.routes,
      rid ∈ r.metroLines.map (fun lkv => lkv.1)) := by
  simp only [extract_metro_tables] at h
  split at h
  · cases h
  split at h
  · cases h
  split at h
  · cases h
  split at h
  · cases h
  split at h
  · cases h
  split at h
  · cases h
  rename_i xa agencyRows ha xb routesRows hb xc stopsRows hc xd stations0 hps
    xf shapes hsh xg rids hde
  cases h
  have hlen : rids.length
      ≤ (List.map (fun kv => kv.2)
          (find_metro_routes routesRows (find_gvb_agency_id agencyRows))).length := by
    rw [List.length_map, deOption_length _ _ hde, List.length_map]
  have hkeys : (List.map
      (fun p => (p.1,
        ({ id := p.1, name := p.2.name, color := p.2.color, route_id := p.1,
           shape := (alookup shapes p.1).getD [],
           stations := List.filter (fun s => s.routes.contains p.1)
             (List.map (fun kv => kv.2) (List.map (fun kv =>
               (kv.1, ({ id := kv.2.id, name := kv.2.name, latitude := kv.2.latitude,
                         longitude := kv.2.longitude, routes := rids } : Station)))
               stations0)) } : MetroLine)))
      (rids.zip (List.map (fun kv => kv.2)
        (find_metro_routes routesRows (find_gvb_agency_id agencyRows))))).map
        (fun lkv => lkv.1) = rids := by
    rw [List.map_map]
    exact List.map_fst_zip rids _ hlen
  refine ⟨?_, ?_, ?_⟩
  · intro kv hkv
    dsimp only at hkv ⊢
    rw [hkeys]
    simp only [List.mem_map] at hkv
    obtain ⟨kv0, _, rfl⟩ := hkv
    rfl
  · intro lkv hlkv skv hskv
    dsimp only at hlkv hskv ⊢
    simp only [List.mem_map] at hlkv hskv
    obtain ⟨p, hp, rfl⟩ := hlkv
    obtain ⟨kv0, hkv0, rfl⟩ := hskv
    dsimp only
    apply List.mem_filter.mpr
    constructor
    · exact List.mem_map.mpr ⟨_, List.mem_map.mpr ⟨kv0, hkv0, rfl⟩, rfl⟩
    · have hp1 : p.1 ∈ rids := (List.of_mem_zip hp).1
      exact List.elem_eq_true_of_mem hp1
  · intro skv hskv rid hrid
    dsimp only at hskv hrid ⊢
    rw [hkeys]
    simp only [List.mem_map] at hskv
    obtain ⟨kv0, _, rfl⟩ := hskv
    exact hrid

theorem exOk_eq {ε α : Type} (x : Except ε α) (d : α) (h : isOkE x = true) :
    x = .ok (exGetD x d) := by
  cases x with
  | ok a => rfl
  | error e => simp [isOkE] at h

theorem c8_witness :
    extract_metro_tables files8 zf zf
      = .ok (exGetD (extract_metro_tables files8 zf zf) ⟨[], []⟩) ∧
    (∀ kv ∈ (exGetD (extract_metro_tables files8 zf zf) ⟨[], []⟩).stations,
      kv.2.routes
        = (exGetD (extract_metro_tables files8 zf zf) ⟨[], []⟩).metroLines.map
            (fun lkv => lkv.1)) :=
  have h : extract_metro_tables files8 zf zf
      = .ok (exGetD (extract_metro_tables files8 zf zf) ⟨[], []⟩) :=
    exOk_eq _ _ (by decide)
  ⟨h, (c8_referential_integrity files8 zf zf _ h).1⟩

/-- Preservation of a pointwise property under dict insert-or-overwrite. -/
theorem upsert_forall {κ α : Type} [BEq κ] (P : κ × α → Prop)
    (l : List (κ × α)) (key : κ) (v : α)
    (hl : ∀ x ∈ l, P x) (hv : P (key, v)) : ∀ x ∈ upsert l key v, P x := by
  induction l with
  | nil =>
    intro x hx
    simp only [upsert, List.mem_singleton] at hx
    subst hx
    exact hv
  | cons hd tl ih =>
    obtain ⟨k, w⟩ := hd
    intro x hx
    simp only [upsert] at hx
    by_cases hk : (k == key) = true
    · rw [if_pos hk] at hx
      rcases List.mem_cons.mp hx with rfl | hx
      · exact hv
      · exact hl x (List.mem_cons_of_mem _ hx)
    · rw [if_neg hk] at hx
      rcases List.mem_cons.mp hx with rfl | hx
      · exact hl _ (List.mem_cons_self _ _)
      · exact ih (fun y hy => hl y (List.mem_cons_of_mem _ hy)) x hx

/-- Coordinate bounds are an invariant of the station-parsing loop whenever
every row's coordinate fields parse within bounds. -/
theorem process_stations_coords (rows : List Row) (acc sts : List (String × Station))
    (hacc : ∀ kv ∈ acc, (-90 ≤ kv.2.latitude ∧ kv.2.latitude ≤ 90) ∧
      (-180 ≤ kv.2.longitude ∧ kv.2.longitude ≤ 180))
    (hrows : ∀ row ∈ rows,
      (row.getD "location_type" "0" = "0" ∨ row.getD "location_type" "0" = "1") →
      coordOk (row.get "stop_lat") 90 ∧ coordOk (row.get "stop_lon") 180)
    (h : process_stations_go acc rows = .ok sts) :
    ∀ kv ∈ sts, (-90 ≤ kv.2.latitude ∧ kv.2.latitude ≤ 90) ∧
      (-180 ≤ kv.2.longitude ∧ kv.2.longitude ≤ 180) := by
  induction rows generalizing acc with
  | nil =>
    cases h
    exact hacc
  | cons row rest ih =>
    simp only [process_stations_go] at h
    by_cases hsel : (row.getD "location_type" "0" == "0"
        || row.getD "location_type" "0" == "1") = true
    · rw [if_pos hsel] at h
      cases hla : parseCoord (row.get "stop_lat") with
      | error e =>
        rw [hla] at h
        cases h
      | ok lat =>
        rw [hla] at h
        cases hlo : parseCoord (row.get "stop_lon") with
        | error e =>
          rw [hlo] at h
          cases h
        | ok lon =>
          rw [hlo] at h
          cases hsid : row.get "stop_id" with
          | none =>
            rw [hsid] at h
            cases h
          | some sid =>
            rw [hsid] at h
            have hsel2 : row.getD "location_type" "0" = "0" ∨
                row.getD "location_type" "0" = "1" := by
              simpa using hsel
            refine ih _ ?_ (fun row2 h2 => hrows row2 (List.mem_cons_of_mem _ h2)) h
            refine upsert_forall _ acc sid _ hacc ?_
            exact ⟨(hrows row (List.mem_cons_self _ _) hsel2).1 lat hla,
                   (hrows row (List.mem_cons_self _ _) hsel2).2 lon hlo⟩
    · rw [if_neg hsel] at h
      exact ih _ hacc (fun row2 h2 => hrows row2 (List.mem_cons_of_mem _ h2)) h

/-- C9 counterexample: `files9` is accepted by ingestion and yields a station
with latitude `999`, outside `[-90, 90]`. -/
theorem c9_counterexample :
    ingest (.ok (.good files9)) zf zf
      = .ok ⟨[], [("s9", ⟨"s9", "X", 999, 4, []⟩)]⟩ ∧
    ¬ ((999 : ℚ) ≤ 90) :=
  ⟨by decide, by decide⟩

/-- C9 (amended): stations carry coordinates parsed as floats with no range
validation; every station of a successful ingestion run has latitude in
`[-90, 90]` and longitude in `[-180, 180]` provided each SELECTED stop row's
(location type 0 or 1) parsed coordinate fields lie within those bounds — not
for every accepted archive. -/
theorem c9_coords_amended (files : GTFSFiles) (msin mcos : ℚ → ℚ)
    (stopsRows : List Row) (r : ExtractResult)
    (hstops : files.stops = some stopsRows)
    (hrows : ∀ row ∈ stopsRows,
      (row.getD "location_type" "0" = "0" ∨ row.getD "location_type" "0" = "1") →
      coordOk (row.get "stop_lat") 90 ∧ coordOk (row.get "stop_lon") 180)
    (h : extract_metro_tables files msin mcos = .ok r) :
    ∀ kv ∈ r.stations, (-90 ≤ kv.2.latitude ∧ kv.2.latitude ≤ 90) ∧
      (-180 ≤ kv.2.longitude ∧ kv.2.longitude ≤ 180) := by
  simp only [extract_metro_tables] at h
  split at h
  · cases h
  split at h
  · cases h
  split at h
  · cases h
  split at h
  · cases h
  split at h
  · cases h
  split at h
  · cases h
  rename_i xa agencyRows ha xb routesRows hb xc stopsRows2 hc xd stations0 hps
    xf shapes hsh xg rids hde
  cases h
  rw [hstops] at hc
  cases hc
  have hst := process_stations_coords stopsRows [] stations0 (by intro kv hkv; cases hkv)
    hrows hps
  intro kv hkv
  dsimp only at hkv
  simp only [List.mem_map] at hkv
  obtain ⟨kv0, hkv0, rfl⟩ := hkv
  exact hst kv0 hkv0

theorem c9_witness :
    files8.stops = some [⟨[("stop_id", "s1"), ("stop_name", "A"), ("stop_lat", "52"),
                           ("stop_lon", "4"), ("location_type", "1")]⟩] ∧
    extract_metro_tables files8 zf zf
      = .ok (exGetD (extract_metro_tables files8 zf zf) ⟨[], []⟩) ∧
    (∀ kv ∈ (exGetD (extract_metro_tables files8 zf zf) ⟨[], []⟩).stations,
      (-90 ≤ kv.2.latitude ∧ kv.2.latitude ≤ 90) ∧
      (-180 ≤ kv.2.longitude ∧ kv.2.longitude ≤ 180)) := by
  have h : extract_metro_tables files8 zf zf
      = .ok (exGetD (extract_metro_tables files8 zf zf) ⟨[], []⟩) :=
    exOk_eq _ _ (by decide)
  refine ⟨rfl, h, c9_coords_amended files8 zf zf _ _ rfl ?_ h⟩
  intro row hrow _
  simp only [List.mem_singleton] at hrow
  subst hrow
  constructor
  · intro q hq
    have he : parseCoord (Row.get ⟨[("stop_id", "s1"), ("stop_name", "A"),
        ("stop_lat", "52"), ("stop_lon", "4"), ("location_type", "1")]⟩ "stop_lat")
        = .ok ((52 : ℕ) : ℚ) := rfl
    rw [he] at hq
    cases hq
    norm_num
  · intro q hq
    have he : parseCoord (Row.get ⟨[("stop_id", "s1"), ("stop_name", "A"),
        ("stop_lat", "52"), ("stop_lon", "4"), ("location_type", "1")]⟩ "stop_lon")
        = .ok ((4 : ℕ) : ℚ) := rfl
    rw [he] at hq
    cases hq
    norm_num

/-- C10: a selected stops row whose latitude or longitude field is missing
does not fail ingestion: the missing coordinate defaults to `0.0` and the
station enters the accumulator at that coordinate; a coordinate raises exactly
when the field is present but non-numeric; an absent field parses to `0`. -/
theorem c10_missing_coord_defaults (row : Row) (rest : List Row)
    (acc : List (String × Station)) (sid : String)
    (hsel : row.getD "location_type" "0" = "0" ∨ row.getD "location_type" "0" = "1")
    (hsid : row.get "stop_id" = some sid)
    (hmiss : row.get "stop_lat" = none ∨ row.get "stop_lon" = none)
    (hlat : ∀ s, row.get "stop_lat" = some s → (pyFloat s).isSome = true)
    (hlon : ∀ s, row.get "stop_lon" = some s → (pyFloat s).isSome = true) :
    (∃ lat lon, process_stations_go acc (row :: rest)
        = process_stations_go
            (upsert acc sid ⟨sid, row.getD "stop_name" "", lat, lon, []⟩) rest ∧
      (row.get "stop_lat" = none → lat = 0) ∧
      (row.get "stop_lon" = none → lon = 0)) ∧
    (∀ s, parseCoord (some s) = .error .valueErr ↔ pyFloat s = none) ∧
    parseCoord none = .ok 0 := by
  have hcond : (row.getD "location_type" "0" == "0"
      || row.getD "location_type" "0" == "1") = true := by
    rcases hsel with h | h <;> simp [h]
  refine ⟨?_, ?_, rfl⟩
  · have hstep : ∀ lat lon, parseCoord (row.get "stop_lat") = .ok lat →
        parseCoord (row.get "stop_lon") = .ok lon →
        process_stations_go acc (row :: rest)
          = process_stations_go
              (upsert acc sid ⟨sid, row.getD "stop_name" "", lat, lon, []⟩) rest := by
      intro lat lon hla hlo
      simp only [process_stations_go]
      rw [if_pos hcond, hla, hlo, hsid]
    cases hla : row.get "stop_lat" with
    | none =>
      cases hlo : row.get "stop_lon" with
      | none =>
        exact ⟨0, 0, hstep 0 0 (by rw [hla]; rfl) (by rw [hlo]; rfl),
          fun _ => rfl, fun _ => rfl⟩
      | some s =>
        obtain ⟨q, hq⟩ := Option.isSome_iff_exists.mp (hlon s hlo)
        refine ⟨0, q, hstep 0 q (by rw [hla]; rfl) ?_, fun _ => rfl, ?_⟩
        · rw [hlo]
          simp [parseCoord, hq]
        · intro hcon
          cases hcon
    | some s =>
      obtain ⟨q, hq⟩ := Option.isSome_iff_exists.mp (hlat s hla)
      cases hlo : row.get "stop_lon" with
      | none =>
        refine ⟨q, 0, hstep q 0 ?_ (by rw [hlo]; rfl), ?_, fun _ => rfl⟩
        · rw [hla]
          simp [parseCoord, hq]
        · intro hcon
          cases hcon
      | some t =>
        obtain ⟨q2, hq2⟩ := Option.isSome_iff_exists.mp (hlon t hlo)
        refine ⟨q, q2, hstep q q2 ?_ ?_, ?_, ?_⟩
        · rw [hla]
          simp [parseCoord, hq]
        · rw [hlo]
          simp [parseCoord, hq2]
        · intro hcon
          cases hcon
        · intro hcon
          cases hcon
  · intro s
    constructor
    · intro h
      cases hpf : pyFloat s with
      | none => rfl
      | some q =>
        simp [parseCoord, hpf] at h
    · intro h
      simp [parseCoord, h]

theorem c10_witness :
    Row.get ⟨[("stop_id", "sM")]⟩ "stop_lat" = none ∧
    process_stations [⟨[("stop_id", "sM")]⟩]
      = .ok [("sM", ⟨"sM", "", 0, 0, []⟩)] := by
  have h := c10_missing_coord_defaults ⟨[("stop_id", "sM")]⟩ [] [] "sM"
    (Or.inl rfl) rfl (Or.inl rfl) (fun s hs => by cases hs) (fun s hs => by cases hs)
  obtain ⟨⟨lat, lon, heq, h1, h2⟩, _, _⟩ := h
  rw [h1 rfl, h2 rfl] at heq
  refine ⟨rfl, ?_⟩
  unfold process_stations
  rw [heq]
  rfl

end AMetro
